import Mathlib

/-!
Verification development for the trader_monitor browser dashboard client.

The embedding covers the two cores of the client code:
* the settings page (`SettingsManager`): the configuration record collected
  from the form (`collectFormData`), its validation (`validateConfig`), the
  save flow (`saveSettings`) and the health display (`displaySystemStatus`);
* the trading dashboard (`TradingDashboard`): the signal reconciliation
  pipeline of `displaySignalsTable` (`removeDuplicateSignals`, sort by
  `created_at` descending, `slice(0, 20)`), and the error path of
  `updateSignalsTable` / `showSignalsError`.

Modelling conventions: JavaScript numbers read by `parseInt` are modelled as
`Int`, numbers read by `parseFloat` as `ℚ`; `Math.round` is modelled by
Mathlib's `round` on `ℚ` (both are floor of `x + 1/2`); an absent object
field is `Option.none`; DOM writes are modelled as the value that would be
written.  Validation error messages are the constructors of
`ValidationError`, whose `message` function renders the exact strings the
code pushes onto its `errors` array.
-/

/-- Technical-analysis parameters of the `trading.ta_params` section, as
collected by `collectFormData` (settings script): `parseInt` sliders as
`Int`, `parseFloat` sliders as `ℚ`. -/
structure TAParams where
  rsi_period : Int
  rsi_overbought : Int
  rsi_oversold : Int
  sma_short : Int
  sma_long : Int
  ema_short : Int
  ema_long : Int
  stoch_overbought : Int
  stoch_oversold : Int
  min_volume_ratio : ℚ
  min_confidence : Int
  min_risk_reward : ℚ
deriving DecidableEq

/-- The `trading.signal_config` section of the collected form data. -/
structure SignalGenConfig where
  max_active_signals : Int
  signal_cooldown_minutes : Int
  stop_loss_atr_multiplier : ℚ
  target_multipliers : ℚ × ℚ × ℚ
deriving DecidableEq

/-- The `trading.indicator_weights` section: one weight per indicator, in
the insertion order of the object literal in `collectFormData`. -/
structure IndicatorWeights where
  rsi : ℚ
  macd : ℚ
  bb : ℚ
  stoch : ℚ
  sma_cross : ℚ
  volume : ℚ
deriving DecidableEq

/-- The `trading` section of the configuration. -/
structure TradingConfig where
  ta_params : TAParams
  signal_config : SignalGenConfig
  indicator_weights : IndicatorWeights
deriving DecidableEq

/-- The `streaming.bitcoin` subsection. -/
structure BitcoinStreaming where
  fetch_interval : Int
  max_queue_size : Int
deriving DecidableEq

/-- The `streaming` section. -/
structure StreamingConfig where
  bitcoin : BitcoinStreaming
deriving DecidableEq

/-- The `system` section: feature flags and the retention-days slider. -/
structure SystemConfig where
  auto_start_stream : Bool
  require_volume_confirmation : Bool
  enable_auto_signals : Bool
  enable_advanced_patterns : Bool
  enable_notifications : Bool
  correlation_analysis : Bool
  auto_cleanup : Bool
  data_retention_days : Int
deriving DecidableEq

/-- A candidate configuration object.  Each top-level section is optional:
`validateConfig` guards on `if (config.trading)`, so a configuration whose
`trading` field is absent (`none`) is a legal input. -/
structure Config where
  trading : Option TradingConfig
  streaming : Option StreamingConfig
  system : Option SystemConfig
deriving DecidableEq

/-- The validation error messages pushed by `validateConfig`, one
constructor per `errors.push(...)` site; `weightSumNot100` carries the
rounded percentage interpolated into its message. -/
inductive ValidationError where
  | rsiOversoldGeOverbought
  | smaShortGeLong
  | emaShortGeLong
  | weightSumNot100 (actualPct : Int)
deriving DecidableEq

/-- The exact message string each `errors.push` call produces. -/
def ValidationError.message : ValidationError → String
  | .rsiOversoldGeOverbought => "RSI oversold deve ser menor que overbought"
  | .smaShortGeLong => "SMA curta deve ser menor que SMA longa"
  | .emaShortGeLong => "EMA curta deve ser menor que EMA longa"
  | .weightSumNot100 actualPct =>
      "Soma dos pesos deve ser 100% (atual: " ++ toString actualPct ++ "%)"

/-- Is this error the weight-sum error? -/
def isWeightSumError : ValidationError → Bool
  | .weightSumNot100 _ => true
  | _ => false

/-- `Math.abs`, as the sign branch on `ℚ` (see `mathAbs_eq_abs` below for
agreement with Mathlib's `|·|`). -/
def mathAbs (q : ℚ) : ℚ := if q < 0 then -q else q

/-- `Object.values(weights).reduce((sum, w) => sum + w, 0)`: the weights in
the insertion order of the `indicator_weights` object literal. -/
def totalWeight (w : IndicatorWeights) : ℚ :=
  w.rsi + w.macd + w.bb + w.stoch + w.sma_cross + w.volume

/-- The result object `{ valid: errors.length === 0, errors }` returned by
`validateConfig`. -/
structure ValidationResult where
  valid : Bool
  errors : List ValidationError
deriving DecidableEq

/-- `SettingsManager.validateConfig` (settings script, lines 398-429): under
`if (config.trading)` it checks `rsi_oversold >= rsi_overbought`,
`sma_short >= sma_long`, `ema_short >= ema_long`, and whether
`Math.abs(totalWeight - 1.0) > 0.01`, pushing one message per violated
check; the weight message interpolates `Math.round(totalWeight * 100)`. -/
def validateConfig (config : Config) : ValidationResult :=
  let errors : List ValidationError :=
    match config.trading with
    | none => []
    | some trading =>
        let ta := trading.ta_params
        (if ta.rsi_overbought ≤ ta.rsi_oversold
          then [ValidationError.rsiOversoldGeOverbought] else [])
        ++ (if ta.sma_long ≤ ta.sma_short
          then [ValidationError.smaShortGeLong] else [])
        ++ (if ta.ema_long ≤ ta.ema_short
          then [ValidationError.emaShortGeLong] else [])
        ++ (if 1/100 < mathAbs (totalWeight trading.indicator_weights - 1)
          then [ValidationError.weightSumNot100
                  (round (totalWeight trading.indicator_weights * 100))]
          else [])
  { valid := errors.isEmpty, errors := errors }

/-- The server's answer to the `POST /settings/api/save-config` request:
either a transport-level failure (the `fetch`/`json` chain throws) or a
JSON reply carrying `status` and `message`. -/
inductive ServerReply where
  | networkFailure
  | reply (status : String) (message : String)
deriving DecidableEq

/-- What `saveSettings` surfaces to the user: the validation abort (the
error list shown via `showError` after joining the messages), a successful
save, or a failure message. -/
inductive SaveOutcome where
  | aborted (errors : List ValidationError)
  | saved
  | failed (message : String)
deriving DecidableEq

/-- The in-memory state `saveSettings` works with: `this.currentConfig`
(the authoritative snapshot) and `this.unsavedChanges` (the dirty flag). -/
structure SettingsState where
  currentConfig : Config
  unsavedChanges : Bool
deriving DecidableEq

/-- One field of a JavaScript object spread `{ ...cur, ...upd }`: the
update's field when present, otherwise the current one. -/
def spreadField {α : Type} (upd cur : Option α) : Option α :=
  match upd with
  | some v => some v
  | none => cur

/-- `{ ...this.currentConfig, ...configData }`: a top-level spread of the
three sections. -/
def mergeConfig (cur upd : Config) : Config :=
  { trading := spreadField upd.trading cur.trading
    streaming := spreadField upd.streaming cur.streaming
    system := spreadField upd.system cur.system }

/-- The observable result of one `saveSettings` run: the state after the
run, whether the `fetch` to the remote API was issued at all, and what was
surfaced to the user. -/
structure SaveResult where
  state : SettingsState
  requestIssued : Bool
  outcome : SaveOutcome
deriving DecidableEq

/-- `SettingsManager.saveSettings` (settings script, lines 355-396), with
the collected form data and the server's reply as explicit inputs: validate
first and abort with the error list when invalid (no request issued); when
valid, issue the request; on `status === 'success'` merge the candidate
into `currentConfig` and clear `unsavedChanges`; on any other reply or on a
thrown network error only an error message is shown and the state is left
untouched. -/
def saveSettings (st : SettingsState) (configData : Config)
    (server : ServerReply) : SaveResult :=
  let validation := validateConfig configData
  if validation.valid = false then
    { state := st, requestIssued := false
      outcome := SaveOutcome.aborted validation.errors }
  else
    match server with
    | ServerReply.networkFailure =>
        { state := st, requestIssued := true
          outcome := SaveOutcome.failed "Erro ao salvar configurações" }
    | ServerReply.reply status message =>
        if status = "success" then
          { state := { currentConfig := mergeConfig st.currentConfig configData
                       unsavedChanges := false }
            requestIssued := true
            outcome := SaveOutcome.saved }
        else
          { state := st, requestIssued := true
            outcome := SaveOutcome.failed ("Erro ao salvar: " ++ message) }

/-- Did this reply fail (transport failure or a non-`success` status)? -/
def saveFailedReply : ServerReply → Bool
  | ServerReply.networkFailure => true
  | ServerReply.reply status _ => !(status == "success")

/-- The CSS class `displaySystemStatus` adds to the status indicator:
`status-active`, `status-warning` or `status-inactive`. -/
inductive StatusIndicator where
  | active
  | warning
  | inactive
deriving DecidableEq

/-- `SettingsManager.displaySystemStatus` (settings script, lines 551-578):
the `switch (status.health)` mapping to the indicator class and status
text; the `default` branch maps every unrecognized value to the warning
state. -/
def displaySystemStatus (health : String) : StatusIndicator × String :=
  if health = "HEALTHY" then (StatusIndicator.active, "Sistema saudável")
  else if health = "DEGRADED" then (StatusIndicator.warning, "Sistema com problemas")
  else if health = "PARTIAL" then (StatusIndicator.warning, "Sistema com problemas")
  else if health = "ERROR" then (StatusIndicator.inactive, "Sistema com erros")
  else (StatusIndicator.warning, "Status desconhecido")

/-- A trading signal as rendered by the dashboard: identity `id`, display
fields, and the creation timestamp `created_at` modelled as its epoch
value (the code compares `new Date(b.created_at) - new Date(a.created_at)`). -/
structure Signal where
  id : Int
  asset_symbol : String
  signal_type : String
  entry_price : ℚ
  target_price : ℚ
  stop_loss : ℚ
  confidence : ℚ
  current_pnl : ℚ
  status : String
  created_at : Int
deriving DecidableEq

/-- `TradingDashboard.removeDuplicateSignals` (dashboard.js, lines 489-493):
`signals.filter((signal, index, self) => index === self.findIndex(s => s.id === signal.id))`,
keeping an element exactly when its index is the first index holding its
`id`. -/
def removeDuplicateSignals (signals : List Signal) : List Signal :=
  ((signals.enum.filter fun p =>
      signals.findIdx (fun s => s.id == p.2.id) == p.1).map Prod.snd)

/-- The sort comparator `(a, b) => new Date(b.created_at) - new Date(a.created_at)`
of `displaySignalsTable`, as the "a may come before b" relation of a stable
sort: the comparator is non-positive exactly when `b.created_at ≤ a.created_at`
(descending by creation time). -/
def signalLe (a b : Signal) : Bool :=
  decide (b.created_at ≤ a.created_at)

/-- The reconciliation pipeline of `TradingDashboard.displaySignalsTable`
(dashboard.js, lines 434-440): `removeDuplicateSignals`, then
`uniqueSignals.sort((a, b) => new Date(b.created_at) - new Date(a.created_at))`
(a stable sort, modelled by `mergeSort`), then `slice(0, 20)`. -/
def reconcileSignals (signals : List Signal) : List Signal :=
  (((removeDuplicateSignals signals).mergeSort signalLe).take 20)

/-- What the signals table body (`#signals-table-body`) displays: the rows
of a rendered signal list, the "Nenhum sinal ativo" placeholder, or the
"Erro ao carregar sinais" message written by `showSignalsError`. -/
inductive TableView where
  | rendered (signals : List Signal)
  | emptyMessage
  | errorMessage
deriving DecidableEq

/-- One polling fetch of `/api/signals/dashboard-data`: either the signal
list of a successful reply, or a failure (network error, non-ok HTTP
status, or `success: false` in the body — all reach the `catch`). -/
inductive FetchResult where
  | ok (signals : List Signal)
  | failure
deriving DecidableEq

/-- One cycle of `TradingDashboard.updateSignalsTable` (dashboard.js, lines
386-415) acting on the table view: a successful fetch renders the
reconciled list (or the empty placeholder when no signals came back); any
failure runs the `catch` branch, whose `showSignalsError` (lines 546-558)
overwrites the table body with the error message. -/
def updateSignalsTable (view : TableView) (result : FetchResult) : TableView :=
  match result with
  | FetchResult.ok signals =>
      if signals.isEmpty then TableView.emptyMessage
      else TableView.rendered (reconcileSignals signals)
  | FetchResult.failure => TableView.errorMessage


/-! Concrete inputs used by the witnesses below. -/

/-- A technical-analysis record satisfying every validated pair. -/
def goodTA : TAParams :=
  { rsi_period := 14, rsi_overbought := 70, rsi_oversold := 30
    sma_short := 9, sma_long := 21, ema_short := 12, ema_long := 26
    stoch_overbought := 80, stoch_oversold := 20
    min_volume_ratio := 3/2, min_confidence := 60, min_risk_reward := 3/2 }

/-- Weights summing to exactly 1 (the valid scenario of the spec). -/
def goodWeights : IndicatorWeights :=
  { rsi := 1/5, macd := 1/5, bb := 1/5, stoch := 1/5
    sma_cross := 1/10, volume := 1/10 }

/-- A signal-generation section. -/
def exampleSignalGen : SignalGenConfig :=
  { max_active_signals := 5, signal_cooldown_minutes := 30
    stop_loss_atr_multiplier := 2, target_multipliers := (1, 2, 3) }

/-- A streaming section. -/
def exampleStreaming : StreamingConfig :=
  { bitcoin := { fetch_interval := 300, max_queue_size := 1000 } }

/-- A system section. -/
def exampleSystem : SystemConfig :=
  { auto_start_stream := true, require_volume_confirmation := true
    enable_auto_signals := true, enable_advanced_patterns := false
    enable_notifications := true, correlation_analysis := false
    auto_cleanup := true, data_retention_days := 30 }

/-- A fully valid trading section. -/
def goodTrading : TradingConfig :=
  { ta_params := goodTA, signal_config := exampleSignalGen
    indicator_weights := goodWeights }

/-- A fully valid candidate configuration. -/
def goodConfig : Config :=
  { trading := some goodTrading, streaming := some exampleStreaming
    system := some exampleSystem }

/-- A trading section whose RSI bounds are inverted (oversold 80 ≥
overbought 30); everything else is valid. -/
def rsiBadTrading : TradingConfig :=
  { ta_params := { goodTA with rsi_overbought := 30, rsi_oversold := 80 }
    signal_config := exampleSignalGen, indicator_weights := goodWeights }

/-- The configuration carrying `rsiBadTrading`. -/
def rsiBadConfig : Config :=
  { goodConfig with trading := some rsiBadTrading }

/-- A trading section whose stochastic bounds are inverted (oversold 80 ≥
overbought 20) while every validated pair is fine. -/
def stochBadTrading : TradingConfig :=
  { ta_params := { goodTA with stoch_overbought := 20, stoch_oversold := 80 }
    signal_config := exampleSignalGen, indicator_weights := goodWeights }

/-- The configuration carrying `stochBadTrading`. -/
def stochBadConfig : Config :=
  { goodConfig with trading := some stochBadTrading }

/-- Weights summing to 11/10 (the "110%" scenario of the spec). -/
def overWeights : IndicatorWeights :=
  { rsi := 1/2, macd := 1/2, bb := 1/10, stoch := 0, sma_cross := 0, volume := 0 }

/-- The trading section carrying `overWeights`. -/
def overWeightTrading : TradingConfig :=
  { ta_params := goodTA, signal_config := exampleSignalGen
    indicator_weights := overWeights }

/-- The configuration carrying `overWeightTrading`. -/
def overWeightConfig : Config :=
  { goodConfig with trading := some overWeightTrading }

/-- A structurally incomplete configuration: the `trading` field is absent
while the other sections are arbitrary. -/
def noTradingConfig : Config :=
  { trading := none, streaming := some exampleStreaming
    system := some exampleSystem }

/-- A settings state with unsaved edits. -/
def exampleState : SettingsState :=
  { currentConfig := goodConfig, unsavedChanges := true }

/-- A signal with the given `id` and `created_at` equal to `i`. -/
def mkSig (i : Int) : Signal :=
  { id := i, asset_symbol := "BTC", signal_type := "BUY"
    entry_price := 100, target_price := 110, stop_loss := 95
    confidence := 80, current_pnl := 0, status := "ACTIVE", created_at := i }

/-- Twenty-five signals with distinct ids (the boundary scenario). -/
def sig25 : List Signal :=
  (List.range 25).map fun n => mkSig n

/-- `find?` returns `some x` exactly when the element at the first index
satisfying the predicate is `x`. -/
theorem list_find?_eq_some_iff_getElem?_findIdx {α : Type} (p : α → Bool)
    (l : List α) (x : α) :
    l.find? p = some x ↔ l[l.findIdx p]? = some x := by
  induction l with
  | nil => simp
  | cons a t ih =>
    cases hpa : p a with
    | true =>
      simp [List.find?_cons, hpa, List.findIdx_cons]
    | false =>
      simp [List.find?_cons, hpa, List.findIdx_cons, ih]

/-- Membership in `removeDuplicateSignals`: exactly the elements that are
the first occurrence of their own `id`. -/
theorem mem_removeDuplicateSignals {l : List Signal} {x : Signal} :
    x ∈ removeDuplicateSignals l ↔
      l.find? (fun s => s.id == x.id) = some x := by
  unfold removeDuplicateSignals
  rw [list_find?_eq_some_iff_getElem?_findIdx]
  simp only [List.mem_map, List.mem_filter]
  constructor
  · rintro ⟨⟨i, y⟩, ⟨hmem, hpred⟩, rfl⟩
    have hget := List.mk_mem_enum_iff_getElem?.1 hmem
    have hi : l.findIdx (fun s => s.id == y.id) = i := by
      simpa using hpred
    rw [hi]
    exact hget
  · intro h
    refine ⟨(l.findIdx (fun s => s.id == x.id), x),
      ⟨List.mk_mem_enum_iff_getElem?.2 h, by simp⟩, rfl⟩

/-- The deduplicated list carries pairwise distinct `id`s. -/
theorem nodup_ids_removeDuplicateSignals (l : List Signal) :
    ((removeDuplicateSignals l).map (fun s => s.id)).Nodup := by
  unfold removeDuplicateSignals
  rw [List.map_map]
  have h1 : l.enum.Pairwise (fun p q => p.1 ≠ q.1) := by
    have := List.nodup_range (n := l.length)
    rw [← List.enum_map_fst l, List.Nodup, List.pairwise_map] at this
    exact this
  have h2 : (l.enum.filter fun p =>
      l.findIdx (fun s => s.id == p.2.id) == p.1).Pairwise
        (fun p q => p.1 ≠ q.1) := h1.filter _
  have h3 : (l.enum.filter fun p =>
      l.findIdx (fun s => s.id == p.2.id) == p.1).Pairwise
        (fun p q => p.2.id ≠ q.2.id) := by
    refine h2.imp_of_mem ?_
    intro a b ha hb hne heq
    have hpa := List.of_mem_filter ha
    have hpb := List.of_mem_filter hb
    simp only [beq_iff_eq] at hpa hpb
    apply hne
    rw [← hpa, ← hpb, heq]
  rw [List.Nodup, List.pairwise_map]
  exact h3

/-- Every id of the incoming list is represented in the deduplicated list. -/
theorem exists_id_removeDuplicateSignals {l : List Signal} {s : Signal}
    (h : s ∈ l) : ∃ t ∈ removeDuplicateSignals l, t.id = s.id := by
  have hsome : (l.find? (fun u => u.id == s.id)).isSome := by
    rw [List.find?_isSome]
    exact ⟨s, h, by simp⟩
  obtain ⟨t, ht⟩ := Option.isSome_iff_exists.1 hsome
  have hid : t.id = s.id := by
    have := List.find?_some ht
    simpa using this
  refine ⟨t, ?_, hid⟩
  rw [mem_removeDuplicateSignals]
  have hfuneq : (fun u : Signal => u.id == t.id) = (fun u => u.id == s.id) := by
    funext u
    rw [hid]
  rw [hfuneq]
  exact ht

/-- On a list whose ids are already pairwise distinct, `removeDuplicateSignals`
is the identity. -/
theorem removeDuplicateSignals_of_nodup_ids {l : List Signal}
    (h : (l.map (fun s => s.id)).Nodup) : removeDuplicateSignals l = l := by
  unfold removeDuplicateSignals
  have hfilter : (l.enum.filter fun p =>
      l.findIdx (fun s => s.id == p.2.id) == p.1) = l.enum := by
    rw [List.filter_eq_self]
    rintro ⟨i, x⟩ hmem
    have hget := List.mk_mem_enum_iff_getElem?.1 hmem
    have hi : i < l.length := by
      by_contra hge
      rw [List.getElem?_eq_none (by omega)] at hget
      exact Option.noConfusion hget
    have hx : l[i] = x := by
      rw [List.getElem?_eq_getElem hi] at hget
      exact Option.some.inj hget
    have : l.findIdx (fun s => s.id == x.id) = i := by
      rw [List.findIdx_eq hi]
      constructor
      · rw [hx]; simp
      · intro j hji
        simp only [beq_eq_false_iff_ne, ne_eq]
        intro heq
        have hji2 : j < l.length := by omega
        have hmn : i < (l.map (fun s => s.id)).length := by simpa using hi
        have hjn : j < (l.map (fun s => s.id)).length := by simpa using hji2
        have heq2 : (l.map (fun s => s.id)).get ⟨j, hjn⟩
            = (l.map (fun s => s.id)).get ⟨i, hmn⟩ := by
          simp only [List.get_eq_getElem, List.getElem_map]
          rw [heq, hx]
        have hij := congrArg Fin.val (h.get_inj_iff.mp heq2)
        simp only [] at hij
        omega
    simp [this]
  rw [hfilter, List.enum_map_snd]

/-- The deduplicated list has one entry per distinct id of the incoming
list. -/
theorem length_removeDuplicateSignals (l : List Signal) :
    (removeDuplicateSignals l).length = (l.map (fun s => s.id)).toFinset.card := by
  have hnd := nodup_ids_removeDuplicateSignals l
  have hset : ((removeDuplicateSignals l).map (fun s => s.id)).toFinset
      = (l.map (fun s => s.id)).toFinset := by
    ext a
    simp only [List.mem_toFinset, List.mem_map]
    constructor
    · rintro ⟨t, ht, rfl⟩
      have hf := mem_removeDuplicateSignals.1 ht
      exact ⟨t, List.mem_of_find?_eq_some hf, rfl⟩
    · rintro ⟨s, hs, rfl⟩
      obtain ⟨t, ht, hid⟩ := exists_id_removeDuplicateSignals hs
      exact ⟨t, ht, hid⟩
  calc (removeDuplicateSignals l).length
      = ((removeDuplicateSignals l).map (fun s => s.id)).length := by simp
    _ = ((removeDuplicateSignals l).map (fun s => s.id)).toFinset.card :=
        (List.toFinset_card_of_nodup hnd).symm
    _ = (l.map (fun s => s.id)).toFinset.card := by rw [hset]


/-- The descending-by-`created_at` comparator is transitive. -/
theorem signalLe_trans : ∀ (a b c : Signal),
    signalLe a b → signalLe b c → signalLe a c := by
  intro a b c hab hbc
  simp only [signalLe, decide_eq_true_eq] at hab hbc ⊢
  omega

/-- The descending-by-`created_at` comparator is total. -/
theorem signalLe_total : ∀ (a b : Signal), signalLe a b || signalLe b a := by
  intro a b
  simp only [signalLe]
  by_cases h : b.created_at ≤ a.created_at
  · simp [h]
  · simp [le_of_lt (lt_of_not_le h)]

/-- The reconciled list is sorted with respect to the comparator. -/
theorem reconcile_pairwise_le (l : List Signal) :
    (reconcileSignals l).Pairwise (fun a b => signalLe a b = true) := by
  have hs := List.sorted_mergeSort signalLe_trans signalLe_total
    (removeDuplicateSignals l)
  exact List.Pairwise.sublist (List.take_sublist 20 _) hs

/-- The reconciled list still carries pairwise distinct `id`s. -/
theorem nodup_ids_reconcileSignals (l : List Signal) :
    ((reconcileSignals l).map (fun s => s.id)).Nodup := by
  have h1 := nodup_ids_removeDuplicateSignals l
  have hperm : List.Perm ((removeDuplicateSignals l).mergeSort signalLe)
      (removeDuplicateSignals l) := List.mergeSort_perm _ _
  have h2 := h1.perm ((hperm.symm).map (fun s => s.id))
  show ((((removeDuplicateSignals l).mergeSort signalLe).take 20).map
      (fun s => s.id)).Nodup
  exact List.Nodup.sublist
    ((List.take_sublist 20
      ((removeDuplicateSignals l).mergeSort signalLe)).map (fun s => s.id)) h2

/-- Every rendered signal comes from the deduplicated list. -/
theorem mem_dedup_of_mem_reconcile {l : List Signal} {t : Signal}
    (h : t ∈ reconcileSignals l) : t ∈ removeDuplicateSignals l := by
  have := (List.take_sublist 20 _).subset h
  rwa [List.mem_mergeSort] at this

/-- C9: the signal reconciliation pipeline (deduplicate by id, sort by
creation time descending, truncate to 20) is idempotent: applying
`reconcileSignals` to its own output returns the output unchanged; being a
pure function, two calls on the same incoming list trivially agree. -/
theorem reconcileSignals_idempotent (l : List Signal) :
    reconcileSignals (reconcileSignals l) = reconcileSignals l := by
  have h1 : removeDuplicateSignals (reconcileSignals l) = reconcileSignals l :=
    removeDuplicateSignals_of_nodup_ids (nodup_ids_reconcileSignals l)
  have h2 : (reconcileSignals l).mergeSort signalLe = reconcileSignals l :=
    List.mergeSort_of_sorted (reconcile_pairwise_le l)
  have h3 : (reconcileSignals l).take 20 = reconcileSignals l :=
    List.take_of_length_le (List.length_take_le 20 _)
  show ((removeDuplicateSignals (reconcileSignals l)).mergeSort signalLe).take 20
      = reconcileSignals l
  rw [h1, h2, h3]

/-- The `valid` flag is exactly emptiness of the error list. -/
theorem validateConfig_valid_eq (cfg : Config) :
    (validateConfig cfg).valid = (validateConfig cfg).errors.isEmpty := rfl

/-- C10: a candidate configuration without a `trading` field passes
validation unconditionally: none of the rules is evaluated and the result
is `valid` with an empty error list, whatever the other sections hold. -/
theorem validateConfig_absent_trading (cfg : Config)
    (h : cfg.trading = none) :
    validateConfig cfg = { valid := true, errors := [] } := by
  unfold validateConfig
  rw [h]
  rfl

/-- Witness for C10 at the concrete incomplete configuration. -/
theorem validateConfig_absent_trading_witness :
    noTradingConfig.trading = none ∧
      validateConfig noTradingConfig = { valid := true, errors := [] } :=
  ⟨rfl, validateConfig_absent_trading noTradingConfig rfl⟩

/-- C2 counterexample: a configuration whose stochastic oversold bound
(80) is at or above its overbought bound (20), with every other rule
satisfied, still validates with an empty error list — `validateConfig`
never inspects the stochastic pair, refuting the claim that every
oversold/overbought pair is checked. -/
theorem validateConfig_ignores_stoch_pair :
    stochBadConfig.trading = some stochBadTrading ∧
      stochBadTrading.ta_params.stoch_overbought ≤
        stochBadTrading.ta_params.stoch_oversold ∧
      (validateConfig stochBadConfig).errors = [] ∧
      (validateConfig stochBadConfig).valid = true := by
  refine ⟨rfl, by decide, ?_, ?_⟩ <;>
    · unfold validateConfig stochBadConfig stochBadTrading goodConfig
      norm_num [goodTA, goodWeights, totalWeight, mathAbs, exampleSignalGen]

/-- C2 (amended): of the oversold/overbought pairs only the RSI pair is
validated (the stochastic pair is not); whenever the RSI oversold bound is
at or above the RSI overbought bound, the error list is non-empty and
contains that violation. -/
theorem validateConfig_rsi_pair (cfg : Config) (t : TradingConfig)
    (htr : cfg.trading = some t)
    (h : t.ta_params.rsi_overbought ≤ t.ta_params.rsi_oversold) :
    ValidationError.rsiOversoldGeOverbought ∈ (validateConfig cfg).errors ∧
      (validateConfig cfg).errors ≠ [] := by
  unfold validateConfig
  rw [htr]
  simp only [if_pos h]
  constructor
  · simp
  · simp

/-- `mathAbs` agrees with Mathlib's absolute value. -/
theorem mathAbs_eq_abs (q : ℚ) : mathAbs q = |q| := by
  unfold mathAbs
  rcases lt_or_le q 0 with h | h
  · rw [if_pos h, abs_of_neg h]
  · rw [if_neg (not_lt.2 h), abs_of_nonneg h]

/-- C3: when the indicator weights sum to within 0.01 of 1, `validateConfig`
reports no weight-sum error; when the sum lies outside that tolerance, it
reports exactly one weight-sum error, carrying the sum rounded to a whole
percent (`Math.round(totalWeight * 100)`). -/
theorem validateConfig_weight_sum (cfg : Config) (t : TradingConfig)
    (htr : cfg.trading = some t) :
    (|totalWeight t.indicator_weights - 1| ≤ 1/100 →
        (validateConfig cfg).errors.filter isWeightSumError = []) ∧
      (1/100 < |totalWeight t.indicator_weights - 1| →
        (validateConfig cfg).errors.filter isWeightSumError
          = [ValidationError.weightSumNot100
              (round (totalWeight t.indicator_weights * 100))]) := by
  unfold validateConfig
  rw [htr]
  simp only [mathAbs_eq_abs, List.filter_append,
    apply_ite (List.filter isWeightSumError)]
  constructor <;> intro h
  · rw [if_neg (not_lt.2 h)]
    split <;> split <;> split <;> rfl
  · rw [if_pos h]
    split <;> split <;> split <;> rfl

/-- C3 witness: the spec's "110%" scenario — weights summing to 11/10 are
outside the tolerance and the single weight-sum error reports 110. -/
theorem validateConfig_weight_sum_witness :
    overWeightConfig.trading = some overWeightTrading ∧
      1/100 < |totalWeight overWeightTrading.indicator_weights - 1| ∧
      (validateConfig overWeightConfig).errors.filter isWeightSumError
        = [ValidationError.weightSumNot100
            (round (totalWeight overWeightTrading.indicator_weights * 100))] ∧
      round (totalWeight overWeightTrading.indicator_weights * 100) = 110 := by
  have h0 : totalWeight overWeightTrading.indicator_weights - 1 = 1/10 := by
    norm_num [overWeightTrading, overWeights, totalWeight]
  have h1 : (1:ℚ)/100 < |totalWeight overWeightTrading.indicator_weights - 1| := by
    rw [h0, abs_of_pos (by norm_num : (0:ℚ) < 1/10)]
    norm_num
  exact ⟨rfl,
    h1,
    (validateConfig_weight_sum overWeightConfig overWeightTrading rfl).2 h1,
    by norm_num [overWeightTrading, overWeights, totalWeight, round_eq]⟩

/-- C1: whenever validation of the collected form data produces a
non-empty error list, `saveSettings` aborts before contacting the server:
no request is issued, the error list is what is surfaced, and the local
state is untouched. -/
theorem saveSettings_aborts_on_invalid (st : SettingsState) (cfg : Config)
    (server : ServerReply) (h : (validateConfig cfg).errors ≠ []) :
    (saveSettings st cfg server).requestIssued = false ∧
      (saveSettings st cfg server).outcome
        = SaveOutcome.aborted (validateConfig cfg).errors ∧
      (saveSettings st cfg server).state = st := by
  have hv : (validateConfig cfg).valid = false := by
    rw [validateConfig_valid_eq]
    cases e : (validateConfig cfg).errors with
    | nil => exact absurd e h
    | cons a t => simp
  simp [saveSettings, hv]

/-- C1 witness: the inverted-RSI configuration validates non-empty, so the
save aborts with no request. -/
theorem saveSettings_aborts_on_invalid_witness :
    (validateConfig rsiBadConfig).errors ≠ [] ∧
      ((saveSettings exampleState rsiBadConfig ServerReply.networkFailure).requestIssued
          = false ∧
        (saveSettings exampleState rsiBadConfig ServerReply.networkFailure).outcome
          = SaveOutcome.aborted (validateConfig rsiBadConfig).errors ∧
        (saveSettings exampleState rsiBadConfig ServerReply.networkFailure).state
          = exampleState) := by
  have h : (validateConfig rsiBadConfig).errors ≠ [] := by
    unfold validateConfig rsiBadConfig rsiBadTrading goodConfig
    norm_num [goodTA, goodWeights, totalWeight, mathAbs]
  exact ⟨h, saveSettings_aborts_on_invalid exampleState rsiBadConfig
    ServerReply.networkFailure h⟩

/-- C7: a save attempt that fails — network failure or a reply whose
status is not `success` — leaves the dirty flag and the authoritative
snapshot exactly as they were; moreover (last conjunct) the state can
change at all only when the server replied `success`, in which case the
outcome is a completed save. -/
theorem saveSettings_failure_preserves_edits (st : SettingsState)
    (cfg : Config) (server : ServerReply)
    (hdirty : st.unsavedChanges = true)
    (hfail : saveFailedReply server = true) :
    (saveSettings st cfg server).state = st ∧
      (saveSettings st cfg server).state.unsavedChanges = true ∧
      (saveSettings st cfg server).state.currentConfig = st.currentConfig ∧
      ∀ (st2 : SettingsState) (cfg2 : Config) (server2 : ServerReply),
        (saveSettings st2 cfg2 server2).state ≠ st2 →
          (saveSettings st2 cfg2 server2).outcome = SaveOutcome.saved ∧
            ∃ m, server2 = ServerReply.reply "success" m := by
  have hstate : (saveSettings st cfg server).state = st := by
    by_cases hv : (validateConfig cfg).valid = false
    · simp [saveSettings, hv]
    · cases server with
      | networkFailure => simp [saveSettings, hv]
      | reply status message =>
        have hne : ¬ status = "success" := by
          simp only [saveFailedReply, Bool.not_eq_true'] at hfail
          simpa using hfail
        simp [saveSettings, hv, hne]
  refine ⟨hstate, by rw [hstate, hdirty], by rw [hstate], ?_⟩
  intro st2 cfg2 server2 hne
  by_cases hv : (validateConfig cfg2).valid = false
  · exact absurd (by simp [saveSettings, hv]) hne
  · cases server2 with
    | networkFailure => exact absurd (by simp [saveSettings, hv]) hne
    | reply status message =>
      by_cases hs : status = "success"
      · subst hs
        exact ⟨by simp [saveSettings, hv], message, rfl⟩
      · exact absurd (by simp [saveSettings, hv, hs]) hne

/-- C7 witness: a network failure on a valid dirty state preserves it. -/
theorem saveSettings_failure_preserves_edits_witness :
    exampleState.unsavedChanges = true ∧
      saveFailedReply ServerReply.networkFailure = true ∧
      ((saveSettings exampleState goodConfig ServerReply.networkFailure).state
          = exampleState ∧
        (saveSettings exampleState goodConfig ServerReply.networkFailure).state.unsavedChanges
          = true ∧
        (saveSettings exampleState goodConfig ServerReply.networkFailure).state.currentConfig
          = exampleState.currentConfig ∧
        ∀ (st2 : SettingsState) (cfg2 : Config) (server2 : ServerReply),
          (saveSettings st2 cfg2 server2).state ≠ st2 →
            (saveSettings st2 cfg2 server2).outcome = SaveOutcome.saved ∧
              ∃ m, server2 = ServerReply.reply "success" m) :=
  ⟨rfl, rfl, saveSettings_failure_preserves_edits exampleState goodConfig
    ServerReply.networkFailure rfl rfl⟩

/-- C8: the health display is a total mapping to the tri-state indicator:
`HEALTHY` is the healthy state, `DEGRADED` and `PARTIAL` the warning
state, `ERROR` the error state, and every other value falls to the
`default` branch, a warning state — no input fails. -/
theorem displaySystemStatus_tri_state :
    displaySystemStatus "HEALTHY" = (StatusIndicator.active, "Sistema saudável") ∧
      displaySystemStatus "DEGRADED" = (StatusIndicator.warning, "Sistema com problemas") ∧
      displaySystemStatus "PARTIAL" = (StatusIndicator.warning, "Sistema com problemas") ∧
      displaySystemStatus "ERROR" = (StatusIndicator.inactive, "Sistema com erros") ∧
      ∀ health : String, health ≠ "HEALTHY" → health ≠ "DEGRADED" →
        health ≠ "PARTIAL" → health ≠ "ERROR" →
          displaySystemStatus health = (StatusIndicator.warning, "Status desconhecido") := by
  refine ⟨rfl, rfl, rfl, rfl, ?_⟩
  intro health h1 h2 h3 h4
  simp [displaySystemStatus, h1, h2, h3, h4]

/-- C8 witness: an unrecognized health value maps to the warning state. -/
theorem displaySystemStatus_tri_state_witness :
    ("UNKNOWN" ≠ "HEALTHY" ∧ "UNKNOWN" ≠ "DEGRADED" ∧
        "UNKNOWN" ≠ "PARTIAL" ∧ "UNKNOWN" ≠ "ERROR") ∧
      displaySystemStatus "UNKNOWN" = (StatusIndicator.warning, "Status desconhecido") :=
  ⟨⟨by decide, by decide, by decide, by decide⟩,
    displaySystemStatus_tri_state.2.2.2.2 "UNKNOWN" (by decide) (by decide)
      (by decide) (by decide)⟩

/-- C6 counterexample: after a successful render of one signal, a failed
fetch does not retain the rendered state — `showSignalsError` overwrites
the table body with the error message. -/
theorem updateSignalsTable_failure_clears_render :
    updateSignalsTable (TableView.rendered [mkSig 1]) FetchResult.failure
        = TableView.errorMessage ∧
      updateSignalsTable (TableView.rendered [mkSig 1]) FetchResult.failure
        ≠ TableView.rendered [mkSig 1] := by
  constructor
  · rfl
  · intro h
    exact TableView.noConfusion (h.symm.trans rfl)

/-- C6 (amended): a polling cycle whose fetch fails does not retain the
previous view: whatever was rendered before, the `catch` branch replaces
the table body with the "Erro ao carregar sinais" message. -/
theorem updateSignalsTable_failure_shows_error (view : TableView) :
    updateSignalsTable view FetchResult.failure = TableView.errorMessage := rfl

/-- C4: the rendered set never holds two entries with one id, and every
rendered entry — like every deduplicated entry — is the first occurrence
of its id in the incoming order (`find?` returns the first match), so a
later duplicate never contributes its fields; at the dedup stage every
incoming id is still represented. -/
theorem reconcileSignals_first_occurrence_wins (l : List Signal) :
    ((removeDuplicateSignals l).map (fun s => s.id)).Nodup ∧
      (∀ s ∈ l, ∃ t ∈ removeDuplicateSignals l, t.id = s.id) ∧
      (∀ t ∈ removeDuplicateSignals l,
        l.find? (fun u => u.id == t.id) = some t) ∧
      ((reconcileSignals l).map (fun s => s.id)).Nodup ∧
      (∀ t ∈ reconcileSignals l,
        l.find? (fun u => u.id == t.id) = some t) :=
  ⟨nodup_ids_removeDuplicateSignals l,
    fun _ hs => exists_id_removeDuplicateSignals hs,
    fun _ ht => mem_removeDuplicateSignals.1 ht,
    nodup_ids_reconcileSignals l,
    fun _ ht => mem_removeDuplicateSignals.1 (mem_dedup_of_mem_reconcile ht)⟩

/-- C5: with more than 20 distinct incoming ids the rendered list has
exactly 20 entries, is ordered by creation time descending, consists of
deduplicated signals, and dominates the excluded deduplicated signals:
splitting the deduplicated set (up to permutation) into the rendered part
and a rest, every rest entry is no more recent than any rendered entry. -/
theorem reconcileSignals_truncates_to_most_recent (l : List Signal)
    (h : 20 < (l.map (fun s => s.id)).toFinset.card) :
    (reconcileSignals l).length = 20 ∧
      (reconcileSignals l).Pairwise (fun a b => b.created_at ≤ a.created_at) ∧
      (∀ s ∈ reconcileSignals l, s ∈ removeDuplicateSignals l) ∧
      ∃ rest : List Signal,
        List.Perm (removeDuplicateSignals l) (reconcileSignals l ++ rest) ∧
          ∀ s ∈ reconcileSignals l, ∀ t ∈ rest, t.created_at ≤ s.created_at := by
  have hlen : 20 < ((removeDuplicateSignals l).mergeSort signalLe).length := by
    rw [List.length_mergeSort, length_removeDuplicateSignals]
    exact h
  refine ⟨?_, ?_, ?_, ?_⟩
  · show (((removeDuplicateSignals l).mergeSort signalLe).take 20).length = 20
    rw [List.length_take]
    omega
  · exact (reconcile_pairwise_le l).imp fun hab => of_decide_eq_true hab
  · exact fun s hs => mem_dedup_of_mem_reconcile hs
  · refine ⟨((removeDuplicateSignals l).mergeSort signalLe).drop 20, ?_, ?_⟩
    · have hperm :=
        (List.mergeSort_perm (removeDuplicateSignals l) signalLe).symm
      have heq : (removeDuplicateSignals l).mergeSort signalLe
          = reconcileSignals l
            ++ ((removeDuplicateSignals l).mergeSort signalLe).drop 20 :=
        (List.take_append_drop 20 _).symm
      exact hperm.trans (List.Perm.of_eq heq)
    · have hp := List.sorted_mergeSort signalLe_trans signalLe_total
        (removeDuplicateSignals l)
      rw [← List.take_append_drop 20
        ((removeDuplicateSignals l).mergeSort signalLe)] at hp
      have hcross := (List.pairwise_append.1 hp).2.2
      intro s hs t ht
      exact of_decide_eq_true (hcross s hs t ht)

/-- C5 witness: the spec's boundary scenario, 25 distinct incoming ids. -/
theorem reconcileSignals_truncates_witness :
    20 < (sig25.map (fun s => s.id)).toFinset.card ∧
      ((reconcileSignals sig25).length = 20 ∧
        (reconcileSignals sig25).Pairwise (fun a b => b.created_at ≤ a.created_at) ∧
        (∀ s ∈ reconcileSignals sig25, s ∈ removeDuplicateSignals sig25) ∧
        ∃ rest : List Signal,
          List.Perm (removeDuplicateSignals sig25) (reconcileSignals sig25 ++ rest) ∧
            ∀ s ∈ reconcileSignals sig25, ∀ t ∈ rest,
              t.created_at ≤ s.created_at) :=
  ⟨by decide, reconcileSignals_truncates_to_most_recent sig25 (by decide)⟩

/-- C2 witness: the inverted-RSI configuration triggers the RSI violation. -/
theorem validateConfig_rsi_pair_witness :
    rsiBadConfig.trading = some rsiBadTrading ∧
      rsiBadTrading.ta_params.rsi_overbought ≤ rsiBadTrading.ta_params.rsi_oversold ∧
      (ValidationError.rsiOversoldGeOverbought ∈ (validateConfig rsiBadConfig).errors ∧
        (validateConfig rsiBadConfig).errors ≠ []) :=
  ⟨rfl, by decide, validateConfig_rsi_pair rsiBadConfig rsiBadTrading rfl (by decide)⟩
